import Mathlib

/-!
Shallow embedding of the facade-estimation engine of this repository.

`src/pricing.py` is embedded below: its module-level price tables become
Lean lookup functions, `infer_finition_from_support`, `compute_m2_price`
and `build_pricing` become pure Lean functions over exact rationals
(Python floats are idealised as `ℚ`; Python's `round(x, n)` becomes
decimal round-half-even on the exact rational).  The geometry derivation
inlined in `src/app.py` (step 4) and the session reset performed when a
new address is selected (step 0) are embedded as `derive_geometry` and
`select_new_address` over an explicit session record.
-/

namespace Estimateur

/-- Round-half-even on an exact rational, the idealisation of Python's
`round` builtin applied to a real value: nearest integer, ties to even. -/
def roundHalfEven (x : ℚ) : ℤ :=
  let n : ℤ := Int.floor x
  let r : ℚ := x - (n : ℚ)
  if r < 1/2 then n
  else if 1/2 < r then n + 1
  else if n % 2 = 0 then n else n + 1

/-- Python `round(x, d)`: round to `d` decimal places, ties to even. -/
def pyround (x : ℚ) (d : ℕ) : ℚ :=
  (roundHalfEven (x * (10 : ℚ) ^ d) : ℚ) / (10 : ℚ) ^ d

/-- `round(x, 2)` as used throughout `pricing.py` for amounts. -/
def round2 (x : ℚ) : ℚ := pyround x 2

/-- `round(x, 1)` as used throughout `pricing.py` for quantities. -/
def round1 (x : ℚ) : ℚ := pyround x 1

/-- Python `str.upper()` restricted to the ASCII keys the engine uses. -/
def pyUpper (s : String) : String := String.mk (s.data.map Char.toUpper)

/-- Python `str.lower()` restricted to the ASCII keys the engine uses. -/
def pyLower (s : String) : String := String.mk (s.data.map Char.toLower)

/-- `Geometry` dataclass of `pricing.py`. -/
structure Geometry where
  hauteur : ℚ
  surface_facades : ℚ
  perimetre : ℚ
  nb_facades : ℤ
  deriving DecidableEq, Repr

/-- `BASE_FINISH_PRICES` dict of `pricing.py`. -/
def BASE_FINISH_PRICES (f : String) : Option ℚ :=
  if f = "D3" then some 80
  else if f = "SILOXANE" then some 90
  else if f = "MINERAL" then some 105
  else none

/-- `ETAT_COEFFS` dict of `pricing.py` (0.95 / 1.00 / 1.15). -/
def ETAT_COEFFS (e : String) : Option ℚ :=
  if e = "bon" then some (19/20)
  else if e = "moyen" then some 1
  else if e = "degrade" then some (23/20)
  else none

/-- `PARIS_COEFF = 1.20`. -/
def PARIS_COEFF : ℚ := 6/5

/-- `HAUSSMANN_COEFF = 1.20`. -/
def HAUSSMANN_COEFF : ℚ := 6/5

/-- `PRIX_ECHAFAUD_M2 = 40.0`. -/
def PRIX_ECHAFAUD_M2 : ℚ := 40

/-- `PRIX_POINTS` dict of `pricing.py`. -/
def PRIX_POINTS (k : String) : Option ℚ :=
  if k = "fenetre_petite" then some 55
  else if k = "fenetre_grande" then some 85
  else if k = "garde_corps_simple_ml" then some 50
  else if k = "garde_corps_fer_forge_ml" then some 70
  else if k = "garde_corps_balcon_ml" then some 95
  else if k = "descente_ep_ml" then some 35
  else if k = "bandeau_ml" then some 45
  else if k = "zinguerie_ml" then some 75
  else if k = "grille_aeration_u" then some 15
  else if k = "grillage_protection_ml" then some 25
  else if k = "grillage_galva_ml" then some 70
  else if k = "microfissure_ml" then some 10
  else if k = "fissure_ouverte_ml" then some 20
  else if k = "reprise_enduit_m2" then some 25
  else if k = "reprise_lourde_m2" then some 45
  else if k = "chien_assis_u" then some 320
  else none

/-- `supports_enduit` set inside `infer_finition_from_support`. -/
def supports_enduit : List String :=
  ["ENDUIT_CIMENT", "ENDUIT_PLATRE", "BETON_PEINT", "MONOCOUCHE", "CREPI",
   "ENDUIT_MORTIER"]

/-- `supports_mineral` set inside `infer_finition_from_support`. -/
def supports_mineral : List String :=
  ["PIERRE_TAILLE", "PIERRE_APPARENTE", "BRIQUE_PLEINE", "BRIQUE_APPARENTE"]

/-- `infer_finition_from_support` of `pricing.py`.  `(x or "moyen")` in
Python treats the empty string as falsy, hence the emptiness test. -/
def infer_finition_from_support (support_key etat_facade : String) : String :=
  let s := pyUpper support_key
  let etat_norm := pyLower (if etat_facade = "" then "moyen" else etat_facade)
  if s ∈ supports_enduit then
    if etat_norm = "degrade" then "SILOXANE" else "D3"
  else if s ∈ supports_mineral then
    if etat_norm = "degrade" then "MINERAL" else "SILOXANE"
  else "D3"

/-- `compute_m2_price` of `pricing.py`: finish plus unit price
`base * coef_etat * PARIS_COEFF * coef_hauss`, with out-of-table keys
falling back to the `D3` base price and the `moyen` coefficient. -/
def compute_m2_price (support_key etat_facade : String) (is_haussmann : Bool) :
    String × ℚ :=
  let finition := infer_finition_from_support support_key etat_facade
  let base := (BASE_FINISH_PRICES finition).getD 80
  let e0 := pyLower (if etat_facade = "" then "moyen" else etat_facade)
  let etat_norm := if (ETAT_COEFFS e0).isSome then e0 else "moyen"
  let coef_etat := (ETAT_COEFFS etat_norm).getD 1
  let coef_hauss := if is_haussmann then HAUSSMANN_COEFF else 1
  (finition, base * coef_etat * PARIS_COEFF * coef_hauss)

/-- The options bag read by `build_pricing`.  The Python function reads a
string-keyed dict through `options.get(key, default) or default`; the
fields below are exactly the keys it reads, holding the value after that
coercion, so a sparse or all-zero dict is the record of default values. -/
structure Options where
  is_haussmann : Bool
  traiter_chiens_assis : Bool
  nb_chiens_assis : ℤ
  niveaux : ℤ
  surface_reprises_lourdes_detectee : ℚ
  surface_reprises_enduit_detectee : ℚ
  ml_microfissures : ℚ
  ml_fissures_ouvertes : ℚ
  nb_fenetres_petites : ℤ
  nb_fenetres_grandes : ℤ
  ml_garde_corps_fer_forge : ℚ
  ml_garde_corps_balcon : ℚ
  ml_descente_ep : ℚ
  ml_bandeaux : ℚ
  ml_zinguerie : ℚ
  nb_grilles_aeration : ℤ
  ml_grillage_protection : ℚ
  ml_grillage_galva : ℚ
  deriving DecidableEq, Repr

/-- The all-default bag: what `build_pricing` reads from an empty dict. -/
def zeroOptions : Options :=
  ⟨false, false, 0, 1, 0, 0, 0, 0, 0, 0, 0, 0, 0, 0, 0, 0, 0, 0⟩

/-- One line of the estimate, the dict appended to `lignes` by
`build_pricing` (`code, designation, quantite, unite, pu, montant,
famille`). -/
structure Ligne where
  code : String
  designation : String
  quantite : ℚ
  unite : String
  pu : ℚ
  montant : ℚ
  famille : String
  deriving DecidableEq, Repr

/-- One conditional block of `build_pricing`: `if cond: lignes.append(l);
total += m`. -/
def pstep (c : Prop) [Decidable c] (l : Ligne) (m : ℚ)
    (acc : List Ligne × ℚ) : List Ligne × ℚ :=
  if c then (acc.1 ++ [l], acc.2 + m) else acc

/-- The state of `(lignes, total)` in `build_pricing` just before the
final cleanup block (`# 7) Nettoyage forfaitaire`): sections 1–6 of the
source, run in order. -/
def pre_nettoyage (geom : Geometry) (support_key : String) (options : Options)
    (etat_facade : String) : List Ligne × ℚ :=
  let is_haussmann := options.is_haussmann
  let traiter_chiens_assis := options.traiter_chiens_assis
  let nb_chiens_assis := options.nb_chiens_assis
  let niveaux : ℤ := if options.niveaux < 1 then 1 else options.niveaux
  let fp := compute_m2_price support_key etat_facade is_haussmann
  let finition := fp.1
  let prix_m2 := fp.2
  let montant_raval := geom.surface_facades * prix_m2
  let l_raval : Ligne :=
    { code := "RAVAL",
      designation :=
        "Travaux de ravalement (préparation + revêtement " ++ finition ++ ")",
      quantite := round1 geom.surface_facades, unite := "m2",
      pu := round2 prix_m2, montant := round2 montant_raval,
      famille := "RAVALEMENT" }
  let acc1 : List Ligne × ℚ := ([l_raval], montant_raval)
  let surface_base_echaf := geom.surface_facades
  let surface_extra : ℚ :=
    if traiter_chiens_assis = true ∧ 0 < nb_chiens_assis then
      surface_base_echaf / (niveaux : ℚ)
    else 0
  let surface_totale_echaf := surface_base_echaf + surface_extra
  let montant_echaf := surface_totale_echaf * PRIX_ECHAFAUD_M2
  let designation_echaf :=
    if 0 < surface_extra then
      "Échafaudage de façade (avec un étage supplémentaire pour chiens-assis)"
    else "Échafaudage de façade"
  let l_echaf : Ligne :=
    { code := "ECHAF", designation := designation_echaf,
      quantite := round1 surface_totale_echaf, unite := "m2",
      pu := round2 PRIX_ECHAFAUD_M2, montant := round2 montant_echaf,
      famille := "ECHAUFAUDAGE" }
  let acc2 : List Ligne × ℚ := (acc1.1 ++ [l_echaf], acc1.2 + montant_echaf)
  let surface_reprise_lourde :=
    max options.surface_reprises_lourdes_detectee
      (8/100 * geom.surface_facades)
  let pu_rl := (PRIX_POINTS "reprise_lourde_m2").getD 0
  let l_rl : Ligne :=
    { code := "MAC_RL",
      designation := "Reprises lourdes d’enduit (piquage + réenduit)",
      quantite := round1 surface_reprise_lourde, unite := "m2",
      pu := round2 pu_rl, montant := round2 (surface_reprise_lourde * pu_rl),
      famille := "RAVALEMENT" }
  let acc3 := pstep (0 < surface_reprise_lourde) l_rl (surface_reprise_lourde * pu_rl) acc2
  let pu_re := (PRIX_POINTS "reprise_enduit_m2").getD 0
  let l_re : Ligne :=
    { code := "MAC_RE",
      designation := "Reprises ponctuelles d’enduit",
      quantite := round1 options.surface_reprises_enduit_detectee, unite := "m2",
      pu := round2 pu_re, montant := round2 (options.surface_reprises_enduit_detectee * pu_re),
      famille := "RAVALEMENT" }
  let acc4 := pstep (0 < options.surface_reprises_enduit_detectee) l_re (options.surface_reprises_enduit_detectee * pu_re) acc3
  let pu_mi := (PRIX_POINTS "microfissure_ml").getD 0
  let l_mi : Ligne :=
    { code := "MAC_MICRO",
      designation := "Traitement des microfissures (≤ 2 mm)",
      quantite := round1 options.ml_microfissures, unite := "ml",
      pu := round2 pu_mi, montant := round2 (options.ml_microfissures * pu_mi),
      famille := "RAVALEMENT" }
  let acc5 := pstep (0 < options.ml_microfissures) l_mi (options.ml_microfissures * pu_mi) acc4
  let pu_fi := (PRIX_POINTS "fissure_ouverte_ml").getD 0
  let l_fi : Ligne :=
    { code := "MAC_FISS",
      designation := "Traitement des fissures ouvertes (> 2 mm)",
      quantite := round1 options.ml_fissures_ouvertes, unite := "ml",
      pu := round2 pu_fi, montant := round2 (options.ml_fissures_ouvertes * pu_fi),
      famille := "RAVALEMENT" }
  let acc6 := pstep (0 < options.ml_fissures_ouvertes) l_fi (options.ml_fissures_ouvertes * pu_fi) acc5
  let pu_fp := (PRIX_POINTS "fenetre_petite").getD 0
  let l_fp : Ligne :=
    { code := "FEN_P",
      designation := "Fenêtres petites (préparation + peinture)",
      quantite := (options.nb_fenetres_petites : ℚ), unite := "u",
      pu := round2 pu_fp, montant := round2 ((options.nb_fenetres_petites : ℚ) * pu_fp),
      famille := "PEINTURE" }
  let acc7 := pstep (0 < options.nb_fenetres_petites) l_fp ((options.nb_fenetres_petites : ℚ) * pu_fp) acc6
  let pu_fg := (PRIX_POINTS "fenetre_grande").getD 0
  let l_fg : Ligne :=
    { code := "FEN_G",
      designation := "Fenêtres grandes / portes-fenêtres (préparation + peinture)",
      quantite := (options.nb_fenetres_grandes : ℚ), unite := "u",
      pu := round2 pu_fg, montant := round2 ((options.nb_fenetres_grandes : ℚ) * pu_fg),
      famille := "PEINTURE" }
  let acc8 := pstep (0 < options.nb_fenetres_grandes) l_fg ((options.nb_fenetres_grandes : ℚ) * pu_fg) acc7
  let pu_gf := (PRIX_POINTS "garde_corps_fer_forge_ml").getD 0
  let l_gf : Ligne :=
    { code := "GC_FER",
      designation := "Garde-corps fer forgé",
      quantite := round1 options.ml_garde_corps_fer_forge, unite := "ml",
      pu := round2 pu_gf, montant := round2 (options.ml_garde_corps_fer_forge * pu_gf),
      famille := "ZINGUERIE" }
  let acc9 := pstep (0 < options.ml_garde_corps_fer_forge) l_gf (options.ml_garde_corps_fer_forge * pu_gf) acc8
  let pu_gb := (PRIX_POINTS "garde_corps_balcon_ml").getD 0
  let l_gb : Ligne :=
    { code := "GC_BALC",
      designation := "Balcons avec garde-corps",
      quantite := round1 options.ml_garde_corps_balcon, unite := "ml",
      pu := round2 pu_gb, montant := round2 (options.ml_garde_corps_balcon * pu_gb),
      famille := "ZINGUERIE" }
  let acc10 := pstep (0 < options.ml_garde_corps_balcon) l_gb (options.ml_garde_corps_balcon * pu_gb) acc9
  let pu_de := (PRIX_POINTS "descente_ep_ml").getD 0
  let l_de : Ligne :=
    { code := "DEP",
      designation := "Descentes d’eaux pluviales",
      quantite := round1 options.ml_descente_ep, unite := "ml",
      pu := round2 pu_de, montant := round2 (options.ml_descente_ep * pu_de),
      famille := "ZINGUERIE" }
  let acc11 := pstep (0 < options.ml_descente_ep) l_de (options.ml_descente_ep * pu_de) acc10
  let pu_ba := (PRIX_POINTS "bandeau_ml").getD 0
  let l_ba : Ligne :=
    { code := "BAND",
      designation := "Bandeaux / corniches",
      quantite := round1 options.ml_bandeaux, unite := "ml",
      pu := round2 pu_ba, montant := round2 (options.ml_bandeaux * pu_ba),
      famille := "ZINGUERIE" }
  let acc12 := pstep (0 < options.ml_bandeaux) l_ba (options.ml_bandeaux * pu_ba) acc11
  let pu_zi := (PRIX_POINTS "zinguerie_ml").getD 0
  let l_zi : Ligne :=
    { code := "ZINC",
      designation := "Éléments de zinguerie (tablettes, couvertines…)",
      quantite := round1 options.ml_zinguerie, unite := "ml",
      pu := round2 pu_zi, montant := round2 (options.ml_zinguerie * pu_zi),
      famille := "ZINGUERIE" }
  let acc13 := pstep (0 < options.ml_zinguerie) l_zi (options.ml_zinguerie * pu_zi) acc12
  let pu_gr := (PRIX_POINTS "grille_aeration_u").getD 0
  let l_gr : Ligne :=
    { code := "GRIL",
      designation := "Grilles d’aération / ventilation",
      quantite := (options.nb_grilles_aeration : ℚ), unite := "u",
      pu := round2 pu_gr, montant := round2 ((options.nb_grilles_aeration : ℚ) * pu_gr),
      famille := "RAVALEMENT" }
  let acc14 := pstep (0 < options.nb_grilles_aeration) l_gr ((options.nb_grilles_aeration : ℚ) * pu_gr) acc13
  let pu_gp := (PRIX_POINTS "grillage_protection_ml").getD 0
  let l_gp : Ligne :=
    { code := "GRILL_PROT",
      designation := "Grillage de protection (pied d’immeuble)",
      quantite := round1 options.ml_grillage_protection, unite := "ml",
      pu := round2 pu_gp, montant := round2 (options.ml_grillage_protection * pu_gp),
      famille := "INSTALLATION" }
  let acc15 := pstep (0 < options.ml_grillage_protection) l_gp (options.ml_grillage_protection * pu_gp) acc14
  let pu_gg := (PRIX_POINTS "grillage_galva_ml").getD 0
  let l_gg : Ligne :=
    { code := "GRILL_GALV",
      designation := "Garde-corps grillagés galvanisés",
      quantite := round1 options.ml_grillage_galva, unite := "ml",
      pu := round2 pu_gg, montant := round2 (options.ml_grillage_galva * pu_gg),
      famille := "ZINGUERIE" }
  let acc16 := pstep (0 < options.ml_grillage_galva) l_gg (options.ml_grillage_galva * pu_gg) acc15
  let pu_ca := (PRIX_POINTS "chien_assis_u").getD 0
  let l_ca : Ligne :=
    { code := "CHIENS_ASSIS",
      designation := "Chiens-assis / lucarnes (préparation + peinture)",
      quantite := (nb_chiens_assis : ℚ), unite := "u",
      pu := round2 pu_ca, montant := round2 ((nb_chiens_assis : ℚ) * pu_ca),
      famille := "PEINTURE" }
  pstep (traiter_chiens_assis = true ∧ 0 < nb_chiens_assis) l_ca ((nb_chiens_assis : ℚ) * pu_ca) acc16

/-- `build_pricing` of `pricing.py`: the pre-cleanup sections, then the
`NETTOYAGE` lump line worth `total * 0.01`, then the once-rounded total. -/
def build_pricing (geom : Geometry) (support_key : String) (options : Options)
    (etat_facade : String) : List Ligne × ℚ :=
  let acc := pre_nettoyage geom support_key options etat_facade
  let montant_nettoyage := acc.2 * (1/100)
  let l_net : Ligne :=
    { code := "NETTOYAGE",
      designation := "Nettoyage final et repli de chantier",
      quantite := 1, unite := "forfait",
      pu := round2 montant_nettoyage, montant := round2 montant_nettoyage,
      famille := "NETTOYAGE" }
  (acc.1 ++ [l_net], round2 (acc.2 + montant_nettoyage))

/-- The exact (pre-rounding) amount of each line emitted before the
cleanup line, in emission order: `quantity × unit price` as the source
computes it into its running `total`, without the per-line `round(m, 2)`
applied to the stored `montant` field. -/
def montantsExacts (geom : Geometry) (support_key : String) (options : Options)
    (etat_facade : String) : List ℚ :=
  let is_haussmann := options.is_haussmann
  let traiter_chiens_assis := options.traiter_chiens_assis
  let nb_chiens_assis := options.nb_chiens_assis
  let niveaux : ℤ := if options.niveaux < 1 then 1 else options.niveaux
  let fp := compute_m2_price support_key etat_facade is_haussmann
  let prix_m2 := fp.2
  let montant_raval := geom.surface_facades * prix_m2
  let surface_base_echaf := geom.surface_facades
  let surface_extra : ℚ :=
    if traiter_chiens_assis = true ∧ 0 < nb_chiens_assis then
      surface_base_echaf / (niveaux : ℚ)
    else 0
  let surface_totale_echaf := surface_base_echaf + surface_extra
  let montant_echaf := surface_totale_echaf * PRIX_ECHAFAUD_M2
  let surface_reprise_lourde :=
    max options.surface_reprises_lourdes_detectee
      (8/100 * geom.surface_facades)
  [montant_raval, montant_echaf]
  ++ (if 0 < surface_reprise_lourde then
        [surface_reprise_lourde * (PRIX_POINTS "reprise_lourde_m2").getD 0]
      else [])
  ++ (if 0 < options.surface_reprises_enduit_detectee then
        [options.surface_reprises_enduit_detectee *
          (PRIX_POINTS "reprise_enduit_m2").getD 0]
      else [])
  ++ (if 0 < options.ml_microfissures then
        [options.ml_microfissures * (PRIX_POINTS "microfissure_ml").getD 0]
      else [])
  ++ (if 0 < options.ml_fissures_ouvertes then
        [options.ml_fissures_ouvertes *
          (PRIX_POINTS "fissure_ouverte_ml").getD 0]
      else [])
  ++ (if 0 < options.nb_fenetres_petites then
        [(options.nb_fenetres_petites : ℚ) *
          (PRIX_POINTS "fenetre_petite").getD 0]
      else [])
  ++ (if 0 < options.nb_fenetres_grandes then
        [(options.nb_fenetres_grandes : ℚ) *
          (PRIX_POINTS "fenetre_grande").getD 0]
      else [])
  ++ (if 0 < options.ml_garde_corps_fer_forge then
        [options.ml_garde_corps_fer_forge *
          (PRIX_POINTS "garde_corps_fer_forge_ml").getD 0]
      else [])
  ++ (if 0 < options.ml_garde_corps_balcon then
        [options.ml_garde_corps_balcon *
          (PRIX_POINTS "garde_corps_balcon_ml").getD 0]
      else [])
  ++ (if 0 < options.ml_descente_ep then
        [options.ml_descente_ep * (PRIX_POINTS "descente_ep_ml").getD 0]
      else [])
  ++ (if 0 < options.ml_bandeaux then
        [options.ml_bandeaux * (PRIX_POINTS "bandeau_ml").getD 0]
      else [])
  ++ (if 0 < options.ml_zinguerie then
        [options.ml_zinguerie * (PRIX_POINTS "zinguerie_ml").getD 0]
      else [])
  ++ (if 0 < options.nb_grilles_aeration then
        [(options.nb_grilles_aeration : ℚ) *
          (PRIX_POINTS "grille_aeration_u").getD 0]
      else [])
  ++ (if 0 < options.ml_grillage_protection then
        [options.ml_grillage_protection *
          (PRIX_POINTS "grillage_protection_ml").getD 0]
      else [])
  ++ (if 0 < options.ml_grillage_galva then
        [options.ml_grillage_galva *
          (PRIX_POINTS "grillage_galva_ml").getD 0]
      else [])
  ++ (if traiter_chiens_assis = true ∧ 0 < nb_chiens_assis then
        [(nb_chiens_assis : ℚ) * (PRIX_POINTS "chien_assis_u").getD 0]
      else [])

/-- Geometry derivation inlined in `src/app.py` (step 4): total height is
`niveaux * hauteur_par_niveau`, a detached `PAVILLON` counts 4 facades and
any other building type 1, the treated perimeter is `largeur * nb_facades`
and the surface is `hauteur * perimetre`. -/
def derive_geometry (building_type : String) (niveaux : ℤ)
    (hauteur_par_niveau largeur : ℚ) : Geometry :=
  let hauteur := (niveaux : ℚ) * hauteur_par_niveau
  let nb_facades : ℤ := if building_type = "PAVILLON" then 4 else 1
  let perimetre := largeur * (nb_facades : ℚ)
  let surface := hauteur * perimetre
  ⟨hauteur, surface, perimetre, nb_facades⟩

/-- Coordinates held in `st.session_state.coords`. -/
structure Coords where
  lat : ℚ
  lon : ℚ
  deriving DecidableEq, Repr

/-- The dict returned by `ui.render_building_dimensions_form`. -/
structure BuildingDims where
  building_type : String
  support_key : String
  niveaux : ℤ
  largeur : ℚ
  hauteur_par_niveau : ℚ
  deriving DecidableEq, Repr

/-- The dict returned by `ui.render_facade_state_form`. -/
structure FacadeState where
  etat_facade : String
  etat_facade_label : String
  porte_type : String
  deriving DecidableEq, Repr

/-- The dict returned by `ui.render_points_singuliers_form`. -/
structure PointsForm where
  has_commerce_rdc : Bool
  has_bandeaux : Bool
  has_appuis : Bool
  has_toiture_debord : Bool
  has_acroteres : Bool
  nb_descente_ep : ℤ
  has_gardes_corps : Bool
  lg_gardes_corps : ℚ
  deriving DecidableEq, Repr

/-- The dict returned by `ui.render_urgency_form`. -/
structure Urgency where
  delai_mois : ℤ
  urgent : Bool
  deriving DecidableEq, Repr

/-- The dict returned by `ui.render_contact_form`. -/
structure Contact where
  submitted : Bool
  raw_submitted : Bool
  email_valid : Bool
  email : String
  nom : String
  tel : String
  note : String
  deriving DecidableEq, Repr

/-- The OSM context hint bag held in `st.session_state.osm_ctx`
(opaque to the wizard logic modelled here). -/
structure OsmCtx where
  levels : Option ℤ
  has_shop : Bool
  deriving DecidableEq, Repr

/-- The per-session aggregate held in `st.session_state` by `src/app.py`
(the slices touched by the wizard steps). -/
structure SessionState where
  step : ℤ
  addr_label : Option String
  coords : Option Coords
  osm_ctx : OsmCtx
  lignes : List Ligne
  total : ℚ
  last_geom : Option Geometry
  building_dims : Option BuildingDims
  facade_state : Option FacadeState
  points_form : Option PointsForm
  urgency : Option Urgency
  contact : Option Contact
  pdf_bytes : Option (List ℕ)
  deriving Repr

/-- Step 0 of `src/app.py` when the user confirms a newly selected
address (`Analyser le bâtiment` with a selected suggestion): store the
new label, coordinates and freshly fetched OSM context, reset every
downstream computation slice, and advance to step 1. -/
def select_new_address (st : SessionState) (label : String) (lat lon : ℚ)
    (ctx : OsmCtx) : SessionState :=
  { st with
    addr_label := some label
    coords := some ⟨lat, lon⟩
    osm_ctx := ctx
    lignes := []
    total := 0
    last_geom := none
    building_dims := none
    facade_state := none
    points_form := none
    urgency := none
    contact := none
    pdf_bytes := none
    step := 1 }

/-! ### Structural lemmas about the pricing chain -/

theorem pstep_fst (c : Prop) [Decidable c] (l : Ligne) (m : ℚ)
    (acc : List Ligne × ℚ) :
    (pstep c l m acc).1 = acc.1 ++ (if c then [l] else []) := by
  unfold pstep; split <;> simp

theorem pstep_snd (c : Prop) [Decidable c] (l : Ligne) (m : ℚ)
    (acc : List Ligne × ℚ) :
    (pstep c l m acc).2 = acc.2 + (if c then m else 0) := by
  unfold pstep; split <;> simp

theorem mem_ite_singleton {α : Type} {c : Prop} [Decidable c] {a x : α} :
    a ∈ (if c then [x] else []) ↔ c ∧ a = x := by
  split <;> simp_all

/-- The stored `montant` of every pre-cleanup line is the 2-decimal
rounding of the corresponding exact amount, in order. -/
theorem pre_nettoyage_montants (geom : Geometry) (support_key : String)
    (options : Options) (etat_facade : String) :
    (pre_nettoyage geom support_key options etat_facade).1.map Ligne.montant
      = (montantsExacts geom support_key options etat_facade).map round2 := by
  simp only [pre_nettoyage, montantsExacts, pstep_fst]
  simp [apply_ite (List.map Ligne.montant), apply_ite (List.map round2),
    List.append_assoc]

/-- The running `total` accumulated before the cleanup line is the exact
sum of the pre-cleanup amounts. -/
theorem pre_nettoyage_total (geom : Geometry) (support_key : String)
    (options : Options) (etat_facade : String) :
    (pre_nettoyage geom support_key options etat_facade).2
      = (montantsExacts geom support_key options etat_facade).sum := by
  simp only [pre_nettoyage, montantsExacts, pstep_snd]
  simp [apply_ite List.sum, List.append_assoc]
  ring

/-! ### Concrete inputs used by counterexamples and witnesses -/

/-- A 1 m² geometry, used to exhibit per-line rounding drift. -/
def geomUnit : Geometry := ⟨1, 1, 1, 1⟩

/-- Options whose crack/patch lines each carry an exact amount of
1.234 €, so that three per-line roundings drift one cent below the
once-rounded total. -/
def optsDrift : Options :=
  { zeroOptions with
      ml_microfissures := 617/5000
      ml_fissures_ouvertes := 617/10000
      surface_reprises_enduit_detectee := 617/12500 }

/-- A zero-surface geometry (valid per the spec: surface ≥ 0). -/
def geomZero : Geometry := ⟨0, 0, 0, 1⟩

/-- A 100 m² geometry. -/
def geom100 : Geometry := ⟨10, 100, 10, 1⟩

/-- The Scenario-A geometry: height 15 m, street frontage 15 m, 225 m². -/
def geom225 : Geometry := ⟨15, 225, 15, 1⟩

/-- A geometry with negative treated surface. -/
def geomNeg : Geometry := ⟨1, -5, 1, 1⟩

/-! ### Claims -/

/-- C1, counterexample: at a concrete valid input the per-line rounded
`montant`s stored in the output sum to 151.39 € while the returned total
is 151.40 €, so the displayed lines do not sum to the displayed total. -/
theorem C1_counterexample :
    ((build_pricing geomUnit "PIERRE_TAILLE" optsDrift "bon").1.map
        Ligne.montant).sum
      ≠ (build_pricing geomUnit "PIERRE_TAILLE" optsDrift "bon").2 := by
  with_unfolding_all decide

/-- C1 (amended): the returned total is the sum of the exact
(pre-rounding) line amounts — the pre-cleanup amounts plus the 1% cleanup
amount — rounded once to 2 decimals at the end, and each stored line
`montant` is the 2-decimal rounding of its own exact amount; but the
stored per-line rounded amounts need not sum to the returned total. -/
theorem C1_total_rounded_once (geom : Geometry) (support_key : String)
    (options : Options) (etat_facade : String) :
    (build_pricing geom support_key options etat_facade).2
      = round2 ((montantsExacts geom support_key options etat_facade).sum
          + (montantsExacts geom support_key options etat_facade).sum * (1/100))
    ∧ (build_pricing geom support_key options etat_facade).1.map Ligne.montant
      = (montantsExacts geom support_key options etat_facade).map round2
        ++ [round2
            ((montantsExacts geom support_key options etat_facade).sum
              * (1/100))] := by
  constructor
  · simp only [build_pricing]
    rw [pre_nettoyage_total]
  · simp only [build_pricing]
    simp [pre_nettoyage_montants, pre_nettoyage_total]

/-- C2: the cleanup line `NETTOYAGE` is the last element of the returned
list, and its amount is 1% of the running subtotal of the exact line
amounts emitted before it (rounded to the cent for storage); the lines
before it carry exactly those amounts. -/
theorem C2_cleanup_last_and_proportional (geom : Geometry)
    (support_key : String) (options : Options) (etat_facade : String) :
    (build_pricing geom support_key options etat_facade).1.getLast?
      = some
        { code := "NETTOYAGE",
          designation := "Nettoyage final et repli de chantier",
          quantite := 1, unite := "forfait",
          pu := round2
            ((montantsExacts geom support_key options etat_facade).sum
              * (1/100)),
          montant := round2
            ((montantsExacts geom support_key options etat_facade).sum
              * (1/100)),
          famille := "NETTOYAGE" }
    ∧ (build_pricing geom support_key options
        etat_facade).1.dropLast.map Ligne.montant
      = (montantsExacts geom support_key options etat_facade).map round2 := by
  constructor
  · simp only [build_pricing]
    simp [List.getLast?_concat, pre_nettoyage_total]
  · simp only [build_pricing]
    simp [pre_nettoyage_montants]

/-- C9: every derived geometry satisfies
`surface = hauteur × perimetre`, and the Scenario-A inputs (attached
IMMEUBLE, 5 levels of 3.0 m, 15.0 m street width) derive height 15,
perimeter 15 and surface 225. -/
theorem C9_geometry_invariant :
    (∀ (bt : String) (n : ℤ) (hpn l : ℚ),
        (derive_geometry bt n hpn l).surface_facades
          = (derive_geometry bt n hpn l).hauteur
            * (derive_geometry bt n hpn l).perimetre)
    ∧ derive_geometry "IMMEUBLE" 5 3 15 = ⟨15, 225, 15, 1⟩ := by
  constructor
  · intro bt n hpn l
    simp [derive_geometry]
  · with_unfolding_all decide

/-- C10: confirming a newly selected address clears every downstream
session slice (dimensions, facade condition, points/options, urgency,
contact, computed lines, total, geometry, PDF) while the new address
label and coordinates persist. -/
theorem C10_new_address_clears_downstream (st : SessionState)
    (label : String) (lat lon : ℚ) (ctx : OsmCtx) :
    (select_new_address st label lat lon ctx).building_dims = none
    ∧ (select_new_address st label lat lon ctx).facade_state = none
    ∧ (select_new_address st label lat lon ctx).points_form = none
    ∧ (select_new_address st label lat lon ctx).urgency = none
    ∧ (select_new_address st label lat lon ctx).contact = none
    ∧ (select_new_address st label lat lon ctx).lignes = []
    ∧ (select_new_address st label lat lon ctx).total = 0
    ∧ (select_new_address st label lat lon ctx).last_geom = none
    ∧ (select_new_address st label lat lon ctx).pdf_bytes = none
    ∧ (select_new_address st label lat lon ctx).addr_label = some label
    ∧ (select_new_address st label lat lon ctx).coords = some ⟨lat, lon⟩ := by
  exact ⟨rfl, rfl, rfl, rfl, rfl, rfl, rfl, rfl, rfl, rfl, rfl⟩


/-- `ETAT_COEFFS` holds a coefficient exactly for the three condition
ratings. -/
theorem ETAT_COEFFS_isSome (x : String) :
    (ETAT_COEFFS x).isSome = true ↔ x ∈ ["bon", "moyen", "degrade"] := by
  unfold ETAT_COEFFS
  split_ifs <;> simp_all

/-- C3, counterexample: an out-of-enumeration support material and
condition rating are silently coerced to the `D3` finish and the `moyen`
coefficient, and a negative treated surface is priced as-is — the call
returns a normal result instead of surfacing a contract violation. -/
theorem C3_counterexample :
    compute_m2_price "XYZ" "zzz" false = ("D3", 96)
    ∧ (build_pricing geomNeg "XYZ" zeroOptions "zzz").2 = -3434/5 := by
  constructor
  · with_unfolding_all decide
  · have hp : (compute_m2_price "XYZ" "zzz" false).2 = 96 := by
      with_unfolding_all decide
    have h40 : PRIX_ECHAFAUD_M2 = 40 := rfl
    have h : (montantsExacts geomNeg "XYZ" zeroOptions "zzz").sum = -680 := by
      norm_num [montantsExacts, zeroOptions, geomNeg, hp, lt_max_iff, h40]
    simp only [build_pricing]
    rw [pre_nettoyage_total, h]
    norm_num [round2, pyround, roundHalfEven]

/-- C3 (amended): the engine never raises for any input; a support
material outside both support sets and a condition rating outside the
coefficient table are silently coerced to the defaults (`D3` base price
80, `moyen` coefficient 1), giving the unit price `80 × 1 × 1.2` times
the optional Haussmann coefficient. -/
theorem C3_invalid_enums_coerced (s e : String) (h : Bool)
    (hs1 : pyUpper s ∉ supports_enduit) (hs2 : pyUpper s ∉ supports_mineral)
    (he : pyLower (if e = "" then "moyen" else e) ∉ ["bon", "moyen", "degrade"]) :
    compute_m2_price s e h = ("D3", 96 * (if h = true then 6/5 else 1)) := by
  have he' : (ETAT_COEFFS (pyLower (if e = "" then "moyen" else e))).isSome
      = false := by
    rw [Bool.eq_false_iff]
    intro hcontra
    exact he ((ETAT_COEFFS_isSome _).mp hcontra)
  have hb : (BASE_FINISH_PRICES "D3").getD 80 = 80 := by
    with_unfolding_all rfl
  have hm : (ETAT_COEFFS "moyen").getD 1 = 1 := by
    with_unfolding_all rfl
  simp only [compute_m2_price, infer_finition_from_support]
  rw [if_neg hs1, if_neg hs2, he']
  simp only [Bool.false_eq_true, if_false, hb, hm]
  cases h <;> norm_num [PARIS_COEFF, HAUSSMANN_COEFF]

/-- C3, witness: the amended coercion theorem applied at the concrete
out-of-enumeration input `("GRES_CERAME", "inconnu", haussmann)`. -/
theorem C3_witness :
    compute_m2_price "GRES_CERAME" "inconnu" true
      = ("D3", 96 * (if (true : Bool) = true then 6/5 else 1)) :=
  C3_invalid_enums_coerced "GRES_CERAME" "inconnu" true
    (by with_unfolding_all decide) (by with_unfolding_all decide)
    (by with_unfolding_all decide)

/-- C4: for any input with positive treated surface, the heavy
structural-repair line `MAC_RL` is emitted with quantity (and amount at
45 €/m²) driven by `max(detected area, 8% × surface)`, and a detected
area at or below the 8% heuristic minimum leaves that minimum in force. -/
theorem C4_repair_floor (geom : Geometry) (support_key : String)
    (options : Options) (etat_facade : String)
    (hpos : 0 < geom.surface_facades) :
    ((build_pricing geom support_key options etat_facade).1.filter
        (fun l => l.code == "MAC_RL")).map
        (fun l => (l.quantite, l.pu, l.montant))
      = [(round1 (max options.surface_reprises_lourdes_detectee
            (8/100 * geom.surface_facades)), 45,
          round2 (max options.surface_reprises_lourdes_detectee
            (8/100 * geom.surface_facades) * 45))]
    ∧ (options.surface_reprises_lourdes_detectee
          ≤ 8/100 * geom.surface_facades →
        max options.surface_reprises_lourdes_detectee
            (8/100 * geom.surface_facades)
          = 8/100 * geom.surface_facades) := by
  have h8 : (0:ℚ) < 8/100 * geom.surface_facades := by
    have : (0:ℚ) < 8/100 := by norm_num
    exact mul_pos this hpos
  constructor
  · have h45 : (PRIX_POINTS "reprise_lourde_m2").getD 0 = 45 := by
      with_unfolding_all rfl
    have hr45 : round2 (45 : ℚ) = 45 := by
      with_unfolding_all decide
    simp only [build_pricing, pre_nettoyage, pstep_fst]
    simp [List.filter_append, apply_ite (List.filter
        (fun l : Ligne => l.code == "MAC_RL")), lt_max_iff, h8, h45, hr45]
  · intro hle
    exact max_eq_right hle

/-- C4, witness: the repair-floor theorem applied to the Scenario-A
geometry with an all-zero options bag. -/
theorem C4_witness :
    ((build_pricing geom225 "ENDUIT_CIMENT" zeroOptions "moyen").1.filter
        (fun l => l.code == "MAC_RL")).map
        (fun l => (l.quantite, l.pu, l.montant))
      = [(round1 (max zeroOptions.surface_reprises_lourdes_detectee
            (8/100 * geom225.surface_facades)), 45,
          round2 (max zeroOptions.surface_reprises_lourdes_detectee
            (8/100 * geom225.surface_facades) * 45))]
    ∧ (zeroOptions.surface_reprises_lourdes_detectee
          ≤ 8/100 * geom225.surface_facades →
        max zeroOptions.surface_reprises_lourdes_detectee
            (8/100 * geom225.surface_facades)
          = 8/100 * geom225.surface_facades) :=
  C4_repair_floor geom225 "ENDUIT_CIMENT" zeroOptions "moyen"
    (by norm_num [geom225])


/-- C5, counterexample: with support = stone (`PIERRE_TAILLE`) and
condition = good, the finish lookup resolves to `SILOXANE`, not to the
`MINERAL` finish the claim says stone/brick supports get by default. -/
theorem C5_counterexample :
    infer_finition_from_support "PIERRE_TAILLE" "bon" = "SILOXANE"
    ∧ infer_finition_from_support "PIERRE_TAILLE" "bon" ≠ "MINERAL" := by
  with_unfolding_all decide

set_option maxRecDepth 1024 in
/-- C5 (amended): stone/brick supports resolve to `SILOXANE` under any
non-degraded condition and to `MINERAL` only when degraded; stone/good
still avoids the rendered-surface default `D3`, and the Scenario-A
geometry priced as stone/good totals strictly less than as degraded
rendered-cement. -/
theorem C5_stone_brick_finish (e : String)
    (hnd : pyLower (if e = "" then "moyen" else e) ≠ "degrade") :
    (infer_finition_from_support "PIERRE_TAILLE" e = "SILOXANE"
      ∧ infer_finition_from_support "PIERRE_APPARENTE" e = "SILOXANE"
      ∧ infer_finition_from_support "BRIQUE_PLEINE" e = "SILOXANE"
      ∧ infer_finition_from_support "BRIQUE_APPARENTE" e = "SILOXANE")
    ∧ infer_finition_from_support "PIERRE_TAILLE" "degrade" = "MINERAL"
    ∧ infer_finition_from_support "PIERRE_TAILLE" "bon" ≠ "D3"
    ∧ (build_pricing geom225 "PIERRE_TAILLE" zeroOptions "bon").2
        < (build_pricing geom225 "ENDUIT_CIMENT" zeroOptions "degrade").2 := by
  refine ⟨⟨?_, ?_, ?_, ?_⟩, by with_unfolding_all decide,
    by with_unfolding_all decide, ?_⟩
  · simp only [infer_finition_from_support]
    rw [if_neg (show pyUpper "PIERRE_TAILLE" ∉ supports_enduit by
          with_unfolding_all decide),
        if_pos (show pyUpper "PIERRE_TAILLE" ∈ supports_mineral by
          with_unfolding_all decide), if_neg hnd]
  · simp only [infer_finition_from_support]
    rw [if_neg (show pyUpper "PIERRE_APPARENTE" ∉ supports_enduit by
          with_unfolding_all decide),
        if_pos (show pyUpper "PIERRE_APPARENTE" ∈ supports_mineral by
          with_unfolding_all decide), if_neg hnd]
  · simp only [infer_finition_from_support]
    rw [if_neg (show pyUpper "BRIQUE_PLEINE" ∉ supports_enduit by
          with_unfolding_all decide),
        if_pos (show pyUpper "BRIQUE_PLEINE" ∈ supports_mineral by
          with_unfolding_all decide), if_neg hnd]
  · simp only [infer_finition_from_support]
    rw [if_neg (show pyUpper "BRIQUE_APPARENTE" ∉ supports_enduit by
          with_unfolding_all decide),
        if_pos (show pyUpper "BRIQUE_APPARENTE" ∈ supports_mineral by
          with_unfolding_all decide), if_neg hnd]
  · have hp1 : (compute_m2_price "PIERRE_TAILLE" "bon" false).2 = 513/5 := by
      with_unfolding_all decide
    have hp2 : (compute_m2_price "ENDUIT_CIMENT" "degrade" false).2
        = 621/5 := by
      with_unfolding_all decide
    have h40 : PRIX_ECHAFAUD_M2 = 40 := rfl
    have h45 : (PRIX_POINTS "reprise_lourde_m2").getD 0 = 45 := by
      with_unfolding_all rfl
    have ha : (montantsExacts geom225 "PIERRE_TAILLE" zeroOptions "bon").sum
        = 32895 := by
      norm_num [montantsExacts, zeroOptions, geom225, hp1, lt_max_iff, h40,
        h45]
    have hb : (montantsExacts geom225 "ENDUIT_CIMENT" zeroOptions
        "degrade").sum = 37755 := by
      norm_num [montantsExacts, zeroOptions, geom225, hp2, lt_max_iff, h40,
        h45]
    simp only [build_pricing]
    rw [pre_nettoyage_total, pre_nettoyage_total, ha, hb]
    norm_num [round2, pyround, roundHalfEven]

/-- C5, witness: the amended finish/total theorem applied at the concrete
condition rating `"bon"`. -/
theorem C5_witness :
    (infer_finition_from_support "PIERRE_TAILLE" "bon" = "SILOXANE"
      ∧ infer_finition_from_support "PIERRE_APPARENTE" "bon" = "SILOXANE"
      ∧ infer_finition_from_support "BRIQUE_PLEINE" "bon" = "SILOXANE"
      ∧ infer_finition_from_support "BRIQUE_APPARENTE" "bon" = "SILOXANE")
    ∧ infer_finition_from_support "PIERRE_TAILLE" "degrade" = "MINERAL"
    ∧ infer_finition_from_support "PIERRE_TAILLE" "bon" ≠ "D3"
    ∧ (build_pricing geom225 "PIERRE_TAILLE" zeroOptions "bon").2
        < (build_pricing geom225 "ENDUIT_CIMENT" zeroOptions "degrade").2 :=
  C5_stone_brick_finish "bon" (by with_unfolding_all decide)

/-- C6, counterexample: at a zero-surface geometry (valid: surface ≥ 0)
the engine still emits the render, scaffolding and cleanup lines, all
three with amount 0 — zero-amount rows exist, and the render line is
emitted even though the surface is not positive. -/
theorem C6_counterexample :
    (build_pricing geomZero "ENDUIT_CIMENT" zeroOptions "moyen").1.map
        Ligne.montant = [0, 0, 0]
    ∧ (build_pricing geomZero "ENDUIT_CIMENT" zeroOptions "moyen").1.map
        Ligne.code = ["RAVAL", "ECHAF", "NETTOYAGE"] := by
  with_unfolding_all decide

/-- C6 (amended): the render (`RAVAL`), scaffolding (`ECHAF`) and cleanup
(`NETTOYAGE`) lines are emitted for every input — including zero-amount
rows when the surface is zero — while each of the fifteen optional lines
is emitted exactly when its driving condition holds: a positive driving
quantity for the quantity-driven lines (for the heavy-repair line that
quantity is `max(detected area, 8% × surface)`), and the dormer-treatment
flag together with a positive dormer count for the dormer line. -/
theorem C6_line_emission (geom : Geometry) (support_key : String)
    (options : Options) (etat_facade : String) :
    "RAVAL" ∈ (build_pricing geom support_key options etat_facade).1.map
        Ligne.code
    ∧ "ECHAF" ∈ (build_pricing geom support_key options etat_facade).1.map
        Ligne.code
    ∧ "NETTOYAGE" ∈ (build_pricing geom support_key options
        etat_facade).1.map Ligne.code
    ∧ ("MAC_RL" ∈ (build_pricing geom support_key options
          etat_facade).1.map Ligne.code
        ↔ 0 < max options.surface_reprises_lourdes_detectee
            (8/100 * geom.surface_facades))
    ∧ ("MAC_RE" ∈ (build_pricing geom support_key options
          etat_facade).1.map Ligne.code
        ↔ 0 < options.surface_reprises_enduit_detectee)
    ∧ ("MAC_MICRO" ∈ (build_pricing geom support_key options
          etat_facade).1.map Ligne.code
        ↔ 0 < options.ml_microfissures)
    ∧ ("MAC_FISS" ∈ (build_pricing geom support_key options
          etat_facade).1.map Ligne.code
        ↔ 0 < options.ml_fissures_ouvertes)
    ∧ ("FEN_P" ∈ (build_pricing geom support_key options etat_facade).1.map
          Ligne.code
        ↔ 0 < options.nb_fenetres_petites)
    ∧ ("FEN_G" ∈ (build_pricing geom support_key options etat_facade).1.map
          Ligne.code
        ↔ 0 < options.nb_fenetres_grandes)
    ∧ ("GC_FER" ∈ (build_pricing geom support_key options etat_facade).1.map
          Ligne.code
        ↔ 0 < options.ml_garde_corps_fer_forge)
    ∧ ("GC_BALC" ∈ (build_pricing geom support_key options
          etat_facade).1.map Ligne.code
        ↔ 0 < options.ml_garde_corps_balcon)
    ∧ ("DEP" ∈ (build_pricing geom support_key options etat_facade).1.map
          Ligne.code
        ↔ 0 < options.ml_descente_ep)
    ∧ ("BAND" ∈ (build_pricing geom support_key options etat_facade).1.map
          Ligne.code
        ↔ 0 < options.ml_bandeaux)
    ∧ ("ZINC" ∈ (build_pricing geom support_key options etat_facade).1.map
          Ligne.code
        ↔ 0 < options.ml_zinguerie)
    ∧ ("GRIL" ∈ (build_pricing geom support_key options etat_facade).1.map
          Ligne.code
        ↔ 0 < options.nb_grilles_aeration)
    ∧ ("GRILL_PROT" ∈ (build_pricing geom support_key options
          etat_facade).1.map Ligne.code
        ↔ 0 < options.ml_grillage_protection)
    ∧ ("GRILL_GALV" ∈ (build_pricing geom support_key options
          etat_facade).1.map Ligne.code
        ↔ 0 < options.ml_grillage_galva)
    ∧ ("CHIENS_ASSIS" ∈ (build_pricing geom support_key options
          etat_facade).1.map Ligne.code
        ↔ options.traiter_chiens_assis = true
            ∧ 0 < options.nb_chiens_assis) := by
  simp only [build_pricing, pre_nettoyage, pstep_fst]
  simp [apply_ite (List.map Ligne.code), mem_ite_singleton, List.mem_append,
    lt_max_iff]

/-- C7, counterexample: with a positive surface and an all-zero options
bag the output contains the heavy-repair line `MAC_RL`, a line beyond
the claimed mandatory set (site setup / render / scaffolding / cleanup). -/
theorem C7_counterexample :
    "MAC_RL" ∈ (build_pricing geom100 "ENDUIT_CIMENT" zeroOptions
        "moyen").1.map Ligne.code := by
  with_unfolding_all decide

/-- C7 (amended): an all-zero options bag with positive surface yields
exactly four lines — render, scaffolding, the heuristic heavy-repair
line (8% of the surface), and cleanup — and no others. -/
theorem C7_zero_options_lines (geom : Geometry)
    (support_key etat_facade : String) (hpos : 0 < geom.surface_facades) :
    (build_pricing geom support_key zeroOptions etat_facade).1.map Ligne.code
      = ["RAVAL", "ECHAF", "MAC_RL", "NETTOYAGE"] := by
  have h8 : (0:ℚ) < 8/100 * geom.surface_facades :=
    mul_pos (by norm_num) hpos
  simp only [build_pricing, pre_nettoyage, pstep_fst]
  simp [apply_ite (List.map Ligne.code), zeroOptions, lt_max_iff, h8]

/-- C7, witness: the amended zero-options theorem applied to the concrete
100 m² geometry with the plaster support and good condition. -/
theorem C7_witness :
    (build_pricing geom100 "PLATRE_ANCIEN" zeroOptions "BON").1.map
        Ligne.code
      = ["RAVAL", "ECHAF", "MAC_RL", "NETTOYAGE"] :=
  C7_zero_options_lines geom100 "PLATRE_ANCIEN" "BON" (by norm_num [geom100])

/-- C8: the scaffolding line `ECHAF` is always emitted with the flat
40 €/m² rate, and its quantity is the treated surface plus one extra
level worth of surface (`surface / niveaux`, with `niveaux` clamped to at
least 1) exactly when dormer treatment is flagged with a positive dormer
count, and the treated surface alone otherwise. -/
theorem C8_scaffolding_line (geom : Geometry) (support_key : String)
    (options : Options) (etat_facade : String) :
    ((build_pricing geom support_key options etat_facade).1.filter
        (fun l => l.code == "ECHAF")).map
        (fun l => (l.quantite, l.pu, l.montant))
      = [(round1 (geom.surface_facades
            + (if options.traiter_chiens_assis = true
                  ∧ 0 < options.nb_chiens_assis then
                geom.surface_facades
                  / (((if options.niveaux < 1 then 1 else options.niveaux)
                      : ℤ) : ℚ)
              else 0)), 40,
          round2 ((geom.surface_facades
            + (if options.traiter_chiens_assis = true
                  ∧ 0 < options.nb_chiens_assis then
                geom.surface_facades
                  / (((if options.niveaux < 1 then 1 else options.niveaux)
                      : ℤ) : ℚ)
              else 0)) * 40))] := by
  have h40 : round2 (40 : ℚ) = 40 := by with_unfolding_all decide
  simp only [build_pricing, pre_nettoyage, pstep_fst]
  simp [List.filter_append, apply_ite (List.filter
      (fun l : Ligne => l.code == "ECHAF")), h40, PRIX_ECHAFAUD_M2]

end Estimateur
